import Mathlib

/-!
Shallow embedding of the stakeholder-aware retrieval and classification
pipeline of the Payment_chatbot repository, together with theorems checking
the natural-language specification against it.

Python strings are modelled as Lean `String`; Python's `str.lower` as a
character-wise lowering, Python's substring test `needle in hay` as an
infix test on the character lists, and Python slicing `s[:n]` as taking the
first `n` characters.  Float arithmetic on similarity scores is modelled
exactly over `ℚ`.  External services (the vector store, the zero-shot
classifier, the NER model, the regex engine of the standard library and the
generation endpoint) are parameters of the functions that call them.
-/

/-- Prefix test on character lists: true when the first list starts the second. -/
def charsPrefixOf : List Char → List Char → Bool
  | [], _ => true
  | _ :: _, [] => false
  | a :: as, b :: bs => a == b && charsPrefixOf as bs

/-- Infix test on character lists, the model of Python's `needle in hay`. -/
def charsInfixOf (needle : List Char) : List Char → Bool
  | [] => needle.isEmpty
  | b :: bs => charsPrefixOf needle (b :: bs) || charsInfixOf needle bs

/-- Model of Python `str.lower()` (character-wise, enough for the ASCII config terms). -/
def lowerStr (s : String) : String := String.mk (s.toList.map Char.toLower)

/-- Model of Python's substring containment `needle in hay`. -/
def occurs (needle hay : String) : Bool := charsInfixOf needle.toList hay.toList

/-- Model of Python slicing `s[:n]` (by code points). -/
def pyTake (n : Nat) (s : String) : String := String.mk (s.toList.take n)

/-- Model of Python `max(pairs, key=score)` over a non-empty association list:
returns the first pair whose score is maximal (Python's `max` keeps the first
of several maximal elements). -/
def maxByFirst : List (String × Nat) → String × Nat
  | [] => ("", 0)
  | x :: xs => xs.foldl (fun best y => if best.2 < y.2 then y else best) x

/-! ## config.py -/

/-- `settings.STAKEHOLDER_ROLES` from `config.py`. -/
def STAKEHOLDER_ROLES : List String :=
  ["product_lead", "tech_lead", "compliance_lead", "bank_alliance_lead"]

/-- `settings.DOCUMENT_TYPES` from `config.py`. -/
def DOCUMENT_TYPES : List String :=
  ["upi_transaction", "bank_api_response", "compliance_report", "partnership_sla"]

/-- The `upi_transaction` keyword list of `DOCUMENT_PATTERNS` in `config.py`. -/
def upiKeywords : List String :=
  ["upi", "transaction", "payment", "transfer", "vpa", "merchant",
   "customer", "amount", "success", "failed"]

/-- The `bank_api_response` keyword list of `DOCUMENT_PATTERNS` in `config.py`. -/
def bankApiKeywords : List String :=
  ["api", "endpoint", "response", "status code", "latency",
   "integration", "webhook", "callback"]

/-- The `compliance_report` keyword list of `DOCUMENT_PATTERNS` in `config.py`. -/
def complianceKeywords : List String :=
  ["compliance", "audit", "kyc", "aml", "regulatory", "risk",
   "suspicious activity", "report"]

/-- The `partnership_sla` keyword list of `DOCUMENT_PATTERNS` in `config.py`. -/
def slaKeywords : List String :=
  ["sla", "service level", "agreement", "uptime", "partnership",
   "contract", "penalty", "availability"]

/-- `DOCUMENT_PATTERNS` from `config.py`: keyword lists identifying document types. -/
def DOCUMENT_PATTERNS : List (String × List String) :=
  [("upi_transaction", upiKeywords),
   ("bank_api_response", bankApiKeywords),
   ("compliance_report", complianceKeywords),
   ("partnership_sla", slaKeywords)]

/-- The `doc_types` entries of `STAKEHOLDER_CONFIG` from `config.py`. -/
def stakeholderConfigDocTypes : List (String × List String) :=
  [("product_lead", ["upi_transaction", "bank_api_response"]),
   ("tech_lead", ["bank_api_response", "upi_transaction"]),
   ("compliance_lead", ["compliance_report", "upi_transaction"]),
   ("bank_alliance_lead", ["partnership_sla", "bank_api_response"])]

/-! ## chatbot/query_router.py — `QueryRouter` -/

/-- `QueryRouter.stakeholder_keywords`, with each weight level replaced by its
numeric weight from `QueryRouter.weights` (high=5, medium=2, low=1). -/
def stakeholder_keywords : List (String × List (Nat × List String)) :=
  [("product_lead",
    [(5, ["conversion", "adoption", "growth", "metrics", "kpi", "trends", "volume", "retention"]),
     (2, ["transaction", "users", "customer", "success rate", "performance", "analytics"]),
     (1, ["popular", "payment method", "usage", "behavior"])]),
   ("tech_lead",
    [(5, ["api", "error", "endpoint", "integration", "latency", "timeout", "debug"]),
     (2, ["technical", "system", "server", "response time", "failure", "architecture"]),
     (1, ["code", "logs", "performance", "implementation"])]),
   ("compliance_lead",
    [(5, ["kyc", "aml", "compliance", "regulatory", "audit", "fraud", "risk"]),
     (2, ["suspicious", "policy", "legal", "violation", "requirement"]),
     (1, ["report", "mandatory", "guidelines", "verification"])]),
   ("bank_alliance_lead",
    [(5, ["sla", "partnership", "agreement", "contract", "partner", "uptime"]),
     (2, ["bank", "relationship", "service level", "vendor", "alliance"]),
     (1, ["hdfc", "icici", "sbi", "axis", "integration health"])])]

/-- Weighted score of one role: each keyword found as a substring of the
lower-cased query adds its weight level's value. -/
def scoreFor (ql : String) (groups : List (Nat × List String)) : Nat :=
  (groups.map (fun g => g.1 * (g.2.filter (fun kw => occurs (lowerStr kw) ql)).length)).sum

/-- The per-role scores accumulated by `route_query`, in the insertion order of
the `stakeholder_keywords` table (Python dicts preserve insertion order). -/
def roleScores (query : String) : List (String × Nat) :=
  stakeholder_keywords.map (fun rk => (rk.1, scoreFor (lowerStr query) rk.2))

/-- The keyword-scoring branch of `QueryRouter.route_query`: pick the first
role with maximal score; on an all-zero score vector default to
`product_lead`. -/
def routeByScores (query : String) : String :=
  let best := maxByFirst (roleScores query)
  if best.2 = 0 then "product_lead" else best.1

/-- `QueryRouter.route_query`: an explicit, truthy, known role wins outright;
otherwise weighted keyword scoring decides. -/
def route_query (query : String) (user_role : Option String) : String :=
  match user_role with
  | some r =>
      if r != "" && (stakeholder_keywords.map Prod.fst).contains r then r
      else routeByScores query
  | none => routeByScores query

/-! ## Data model shared by retrieval and answering

A formatted vector-store match (`VectorSearch.search` output dictionary):
text preview, source, doc type, similarity score and the comma-joined
`stakeholders` metadata tag (empty when the tag was absent). -/

structure SearchResult where
  id : String
  score : ℚ
  text : String
  source : String
  doc_type : String
  stakeholders : String
deriving DecidableEq

/-! ## chatbot/stakeholder_handler.py — `StakeholderHandler` -/

/-- One entry of `StakeholderHandler.role_filters`. -/
structure RoleFilter where
  required_terms : List String
  forbidden_terms : List String
deriving DecidableEq

/-- `StakeholderHandler.role_filters`. -/
def role_filters : List (String × RoleFilter) :=
  [("product_lead",
    { required_terms := ["user", "customer", "transaction", "rate", "adoption", "metric"],
      forbidden_terms := ["API", "endpoint", "HTTP", "status code", "KYC", "AML", "SLA"] }),
   ("tech_lead",
    { required_terms := ["API", "error", "system", "integration", "technical", "performance"],
      forbidden_terms := ["conversion rate", "user adoption", "KYC", "AML", "SLA", "contract"] }),
   ("compliance_lead",
    { required_terms := ["compliance", "regulatory", "KYC", "AML", "audit", "risk"],
      forbidden_terms := ["API", "endpoint", "code", "conversion", "SLA", "partnership"] }),
   ("bank_alliance_lead",
    { required_terms := ["SLA", "partnership", "bank", "partner", "agreement", "uptime"],
      forbidden_terms := ["API error", "code", "conversion", "KYC", "AML", "compliance"] })]

/-- `self.role_filters.get(stakeholder, {})` followed by the two `.get(..., [])`
lookups: an unknown role yields empty term lists. -/
def filtersFor (stakeholder : String) : RoleFilter :=
  (role_filters.lookup stakeholder).getD { required_terms := [], forbidden_terms := [] }

/-- `StakeholderHandler.validate_response_relevance`: any lower-cased forbidden
term found in the lower-cased response rejects it; otherwise at least two
required terms must be found. -/
def validate_response_relevance (response stakeholder : String) : Bool :=
  let f := filtersFor stakeholder
  let response_lower := lowerStr response
  let violations := f.forbidden_terms.filter (fun t => occurs (lowerStr t) response_lower)
  if violations.isEmpty then
    let found := f.required_terms.filter (fun t => occurs (lowerStr t) response_lower)
    if found.length < 2 then false else true
  else false

/-- `doc_priorities` local table of `StakeholderHandler.filter_sources_by_role`. -/
def doc_priorities : List (String × List String) :=
  [("product_lead", ["upi_transaction", "bank_api_response"]),
   ("tech_lead", ["bank_api_response", "upi_transaction"]),
   ("compliance_lead", ["compliance_report", "upi_transaction"]),
   ("bank_alliance_lead", ["partnership_sla", "bank_api_response"])]

/-- The sort key `get_priority` of `filter_sources_by_role`: index of the doc
type in the priority list, or the list length when absent (`ValueError`
branch).  `List.indexOf` returns the length on a miss, exactly that. -/
def get_priority (priorities : List String) (source : SearchResult) : Nat :=
  priorities.indexOf source.doc_type

/-- `StakeholderHandler.filter_sources_by_role`: Python's stable `sorted` by
`get_priority`, modelled by the (stable) `List.mergeSort`. -/
def filter_sources_by_role (sources : List SearchResult) (stakeholder : String) :
    List SearchResult :=
  let priorities := (doc_priorities.lookup stakeholder).getD []
  sources.mergeSort (fun a b => decide (get_priority priorities a ≤ get_priority priorities b))

/-! ## vector_db/vector_search.py — `VectorSearch.search_by_stakeholder`

`VectorSearch.search` wraps the external Pinecone query; it is modelled as a
`store` parameter mapping (query, top_k, namespace) to the formatted result
list. -/

/-- The acceptance test of the filtering loop: `stakeholder in stakeholders or
not stakeholders` (Python substring test on the comma-joined tag, plus the
empty-tag escape hatch). -/
def stakeholderPasses (stakeholder : String) (r : SearchResult) : Bool :=
  occurs stakeholder r.stakeholders || r.stakeholders == ""

/-- The filtering loop of `search_by_stakeholder`: keep passing results,
breaking as soon as `top_k` of them have been collected.  `count` is the
number already collected. -/
def filterLoop (stakeholder : String) (top_k : Nat) (count : Nat) :
    List SearchResult → List SearchResult
  | [] => []
  | r :: rs =>
      if stakeholderPasses stakeholder r then
        if top_k ≤ count + 1 then [r]
        else r :: filterLoop stakeholder top_k (count + 1) rs
      else filterLoop stakeholder top_k count rs

/-- `VectorSearch.search_by_stakeholder`: ask the store for `2×top_k` raw
candidates, then run the stakeholder filtering loop. -/
def search_by_stakeholder (store : String → Nat → String → List SearchResult)
    (query stakeholder : String) (top_k : Nat) (ns : String) : List SearchResult :=
  let results := store query (top_k * 2) ns
  filterLoop stakeholder top_k 0 results

/-! ## document_processor/document_classifier.py — `DocumentClassifier`

The zero-shot model is external: its top label and score are parameters
(`mlLabel`, `mlScore`) of `classify_document`. -/

/-- Count of a pattern list's keywords found in the (already lower-cased)
text, as in both the scoring pass and `_has_strong_pattern_match`. -/
def countMatches (keywords : List String) (text_lower : String) : Nat :=
  (keywords.filter (fun kw => occurs kw text_lower)).length

/-- Per-type score of `DocumentClassifier._rule_based_classify`: keyword count
plus a bonus of 2 when any keyword appears in the lower-cased filename. -/
def ruleScore (keywords : List String) (text_lower filename_lower : String) : Nat :=
  countMatches keywords text_lower +
    (if keywords.any (fun kw => occurs kw filename_lower) then 2 else 0)

/-- `DocumentClassifier._rule_based_classify`: highest-scoring doc type, or
none when every score is zero. -/
def rule_based_classify (text filename : String) : Option String :=
  let tl := lowerStr text
  let fl := lowerStr filename
  let scores := DOCUMENT_PATTERNS.map (fun p => (p.1, ruleScore p.2 tl fl))
  let best := maxByFirst scores
  if best.2 > 0 then some best.1 else none

/-- `DocumentClassifier._has_strong_pattern_match`: at least 3 of the type's
keywords present in the lower-cased text. -/
def has_strong_pattern_match (text doc_type : String) : Bool :=
  let keywords := (DOCUMENT_PATTERNS.lookup doc_type).getD []
  decide (3 ≤ countMatches keywords (lowerStr text))

/-- `DocumentClassifier._map_to_stakeholders`: roles whose configured
`doc_types` contain the given type, in config order. -/
def map_to_stakeholders (doc_type : String) : List String :=
  (stakeholderConfigDocTypes.filter (fun rc => rc.2.contains doc_type)).map (·.1)

/-- Result dictionary of `DocumentClassifier.classify_document`. -/
structure ClassificationResult where
  doc_type : String
  confidence : ℚ
  stakeholder_relevance : List String
  classification_method : String
deriving DecidableEq

/-- `DocumentClassifier.classify_document`: a strong rule candidate wins with
fixed confidence 0.85, otherwise the external zero-shot label and score are
adopted; the reported method compares the rule candidate with the final
type. -/
def classify_document (mlLabel : String) (mlScore : ℚ) (text filename : String) :
    ClassificationResult :=
  let rule := rule_based_classify text filename
  let chosen : String × ℚ :=
    match rule with
    | some rt => if has_strong_pattern_match text rt then (rt, 85/100) else (mlLabel, mlScore)
    | none => (mlLabel, mlScore)
  { doc_type := chosen.1
    confidence := chosen.2
    stakeholder_relevance := map_to_stakeholders chosen.1
    classification_method := if rule = some chosen.1 then "rule_based" else "ml_based" }

/-! ## chatbot/response_generator.py — `ResponseGenerator`

The Ollama HTTP call is external; its outcome is a parameter.  A reply with
status 200 carries the generated answer text (the `response` JSON field); any
other outcome is a failure the code must absorb. -/

/-- Outcome of the external generation call in `generate_response`. -/
inductive OllamaOutcome where
  | reply (status : Nat) (body : String)
  | connectionError
  | timeoutError
  | otherException
deriving DecidableEq

/-- A failing outcome: non-200 status, connection error, timeout, or any
other exception. -/
def isFailure : OllamaOutcome → Bool
  | .reply status _ => status != 200
  | _ => true

/-- One formatted source of `ResponseGenerator._format_sources`. -/
structure SourceInfo where
  source : String
  doc_type : String
  relevance_score : ℚ
  preview : String
deriving DecidableEq

/-- Result dictionary of `ResponseGenerator.generate_response`. -/
structure GenResult where
  success : Bool
  answer : String
  stakeholder : String
  confidence : ℚ
  sources : List SourceInfo
  context_used : Nat
deriving DecidableEq

/-- The role-revealing prefixes stripped by `_clean_response`. -/
def phrases_to_remove : List String :=
  ["As a Product Lead, ", "As a Technical Lead, ", "As a Compliance Lead, ",
   "As a Bank Alliance Lead, ", "From a product perspective, ",
   "From a technical standpoint, ", "From a compliance perspective, ",
   "From a partnership perspective, "]

/-- Model of Python `str.strip()`. -/
def pyStrip (s : String) : String :=
  String.mk (((s.toList.dropWhile Char.isWhitespace).reverse.dropWhile Char.isWhitespace).reverse)

/-- `ResponseGenerator._clean_response`: drop each opening role-revealing
phrase in turn, then strip surrounding whitespace. -/
def clean_response (answer : String) : String :=
  pyStrip (phrases_to_remove.foldl
    (fun a phrase =>
      if charsPrefixOf phrase.toList a.toList then String.mk (a.toList.drop phrase.toList.length)
      else a)
    answer)

/-- `ResponseGenerator._calculate_confidence`: average similarity score scaled
to a percentage and capped at 100; no documents means 0. -/
def calculate_confidence (docs : List SearchResult) : ℚ :=
  if docs.isEmpty then 0
  else
    let scores := docs.map (·.score)
    let avg := if scores.isEmpty then 0 else scores.sum / (scores.length : ℚ)
    min (avg * 100) 100

/-- `ResponseGenerator._format_sources`. -/
def format_sources (docs : List SearchResult) : List SourceInfo :=
  docs.map (fun d =>
    { source := d.source, doc_type := d.doc_type, relevance_score := d.score,
      preview := pyTake 200 d.text })

/-- `ResponseGenerator._mock_response`: the deterministic fallback when the
generation service is unavailable. -/
def mock_response (_query : String) (docs : List SearchResult) (stakeholder : String) :
    GenResult :=
  let answer :=
    match docs with
    | d :: _ =>
        "Based on the available documentation:\n\n" ++ pyTake 300 d.text ++
        "...\n\n[Note: LLM service temporarily unavailable. Please ensure Ollama is running with \x27ollama serve\x27]"
    | [] =>
        "I don\x27t have enough context to answer this question. Please try rephrasing or provide more details.\n\n[Note: LLM service temporarily unavailable. Please ensure Ollama is running with \x27ollama serve\x27]"
  { success := true
    answer := answer
    stakeholder := stakeholder
    confidence := if docs.isEmpty then 30 else 60
    sources := format_sources docs
    context_used := docs.length }

/-- `ResponseGenerator.generate_response`: on a 200 reply, clean the generated
text and attach confidence and sources; on any failure fall back to
`mock_response`. -/
def generate_response (outcome : OllamaOutcome) (query : String)
    (context_docs : List SearchResult) (stakeholder : String) : GenResult :=
  match outcome with
  | .reply status body =>
      if status == 200 then
        { success := true
          answer := clean_response body
          stakeholder := stakeholder
          confidence := calculate_confidence context_docs
          sources := format_sources context_docs
          context_used := context_docs.length }
      else mock_response query context_docs stakeholder
  | _ => mock_response query context_docs stakeholder

/-! ## document_processor/entity_extractor.py — `EntityExtractor`

Two external collaborators are parameters: `ner`, the NER pipeline (which may
raise — modelled with `Except`), and `re`, the standard library's
`re.findall` taking a pattern and a text.  The literal pattern strings of the
source are passed to `re` unchanged (`\x7b`/`\x7d` denote literal braces). -/

/-- One aggregated NER hit: its `entity_group` label and the matched word. -/
structure NerEntity where
  entity_group : String
  word : String
deriving DecidableEq

/-- The deduplicated entity buckets returned by `extract_entities`. -/
structure EntityBundle where
  organizations : List String
  persons : List String
  locations : List String
  dates : List String
  amounts : List String
  transaction_ids : List String
  account_numbers : List String
  api_endpoints : List String
  error_codes : List String
  ip_addresses : List String
  urls : List String
deriving DecidableEq

/-- The four amount regexes of `_extract_financial_entities`. -/
def amount_patterns : List String :=
  ["₹\\s*([0-9,]+(?:\\.[0-9]\x7b2\x7d)?)",
   "INR\\s*([0-9,]+(?:\\.[0-9]\x7b2\x7d)?)",
   "Rs\\.?\\s*([0-9,]+(?:\\.[0-9]\x7b2\x7d)?)",
   "\\$\\s*([0-9,]+(?:\\.[0-9]\x7b2\x7d)?)"]

/-- The three transaction-id regexes of `_extract_financial_entities`. -/
def txn_patterns : List String :=
  ["(?:TXN|TRANS|TRANSACTION)[_\\s]*(?:ID|NUMBER)?[:\\s]*([A-Z0-9]\x7b8,20\x7d)",
   "(?:REF|REFERENCE)[_\\s]*(?:ID|NUMBER)?[:\\s]*([A-Z0-9]\x7b8,20\x7d)",
   "\\b[A-Z]\x7b3\x7d[0-9]\x7b10,\x7d\\b"]

/-- The two account-number regexes of `_extract_financial_entities`. -/
def account_patterns : List String :=
  ["(?:ACCOUNT|ACC)[_\\s]*(?:NO|NUMBER)?[:\\s]*([X\\d]\x7b4,20\x7d)",
   "\\b\\d\x7b4\x7d[-\\s]?\\d\x7b4\x7d[-\\s]?\\d\x7b4\x7d[-\\s]?\\d\x7b4\x7d\\b"]

/-- The four date regexes of `_extract_financial_entities`. -/
def date_patterns : List String :=
  ["\\d\x7b4\x7d-\\d\x7b2\x7d-\\d\x7b2\x7d",
   "\\d\x7b2\x7d/\\d\x7b2\x7d/\\d\x7b4\x7d",
   "\\d\x7b2\x7d-\\d\x7b2\x7d-\\d\x7b4\x7d",
   "(?:Jan|Feb|Mar|Apr|May|Jun|Jul|Aug|Sep|Oct|Nov|Dec)[a-z]*\\s+\\d\x7b1,2\x7d,?\\s+\\d\x7b4\x7d"]

/-- The two API-endpoint regexes of `_extract_technical_entities`. -/
def api_patterns : List String :=
  ["/api/v?\\d*/[\\w/\\-]+",
   "(?:GET|POST|PUT|DELETE|PATCH)\\s+([\\w/\\-]+)"]

/-- The two error-code regexes of `_extract_technical_entities`. -/
def error_patterns : List String :=
  ["(?:ERROR|ERR)[_\\s]*(?:CODE)?[:\\s]*([A-Z0-9_\\-]\x7b3,10\x7d)",
   "\\b[45]\\d\x7b2\x7d\\b"]

/-- The IPv4 regex of `_extract_technical_entities`. -/
def ip_pattern : String := "\\b(?:\\d\x7b1,3\x7d\\.)\x7b3\x7d\\d\x7b1,3\x7d\\b"

/-- The URL regex of `_extract_technical_entities`. -/
def url_pattern : String := "https?://[^\\s<>\"\x7b\x7d|\\\\^`\\[\\]]+"

/-- `EntityExtractor.extract_entities`: the NER pipeline runs first on the
first 1000 characters (its failure propagates — there is no handler around
it in the source); then the regex batteries fill the remaining buckets, and
every bucket is deduplicated (`list(set(...))`). -/
def extract_entities (re : String → String → List String)
    (ner : String → Except String (List NerEntity)) (text : String) :
    Except String EntityBundle :=
  match ner (pyTake 1000 text) with
  | .error e => .error e
  | .ok hits =>
      let pick (label : String) : List String :=
        (hits.filter (fun h => h.entity_group == label)).map (·.word)
      let runAll (pats : List String) : List String := (pats.map (fun p => re p text)).flatten
      .ok
        { organizations := (pick "ORG").dedup
          persons := (pick "PER").dedup
          locations := (pick "LOC").dedup
          dates := (runAll date_patterns).dedup
          amounts := (runAll amount_patterns).dedup
          transaction_ids := (runAll txn_patterns).dedup
          account_numbers := (runAll account_patterns).dedup
          api_endpoints := (runAll api_patterns).dedup
          error_codes := (runAll error_patterns).dedup
          ip_addresses := (re ip_pattern text).dedup
          urls := (re url_pattern text).dedup }

/-! ## Sample inputs used by concrete witnesses -/

/-- A sample retrieved chunk used in concrete witnesses. -/
def sampleDoc : SearchResult :=
  { id := "1", score := 1/2, text := "UPI transactions succeeded at 94%.",
    source := "upi.pdf", doc_type := "upi_transaction", stakeholders := "" }

/-- A one-element retrieval used in concrete witnesses. -/
def sampleDocs : List SearchResult := [sampleDoc]

/-- A chunk tagged for two roles, used in concrete witnesses. -/
def taggedDoc : SearchResult :=
  { id := "2", score := 2/5, text := "API latency rose.", source := "api.pdf",
    doc_type := "bank_api_response", stakeholders := "tech_lead,product_lead" }

/-- A chunk tagged for a different role, used in concrete witnesses. -/
def otherDoc : SearchResult :=
  { id := "3", score := 3/10, text := "KYC audit notes.", source := "kyc.pdf",
    doc_type := "compliance_report", stakeholders := "compliance_lead" }

/-! ## Theorems -/

/-- Claim C1: for every answer text and role, `validate_response_relevance`
returns true iff, after lower-casing, none of the role's forbidden terms
occurs as a substring of the answer and at least 2 distinct required terms
do; any forbidden term forces false regardless of required-term matches. -/
theorem validate_response_relevance_spec (response stakeholder : String) :
    validate_response_relevance response stakeholder = true ↔
      ((∀ t ∈ (filtersFor stakeholder).forbidden_terms,
          occurs (lowerStr t) (lowerStr response) = false) ∧
       2 ≤ ((filtersFor stakeholder).required_terms.filter
              (fun t => occurs (lowerStr t) (lowerStr response))).length) := by
  simp only [validate_response_relevance]
  split_ifs with hv hm
  · simp only [Bool.false_eq_true, false_iff, not_and]
    intro _
    omega
  · simp only [true_iff]
    rw [List.isEmpty_iff, List.filter_eq_nil_iff] at hv
    refine ⟨fun t ht => ?_, by omega⟩
    have := hv t ht
    simp only [Bool.not_eq_true] at this
    exact this
  · simp only [Bool.false_eq_true, false_iff, not_and]
    intro hforb
    exfalso
    apply hv
    rw [List.isEmpty_iff, List.filter_eq_nil_iff]
    intro t ht
    simp [hforb t ht]

/-- Claim C10: an explicit `user_role` that is not one of the four configured
roles is silently ignored and routing falls back to keyword scoring, the
same result as supplying no role at all. -/
theorem route_query_unknown_role_ignored (query role : String)
    (h : role ∉ STAKEHOLDER_ROLES) :
    route_query query (some role) = route_query query none := by
  have hkeys : stakeholder_keywords.map Prod.fst = STAKEHOLDER_ROLES := by rfl
  have hc : (stakeholder_keywords.map Prod.fst).contains role = false := by
    rw [hkeys]
    simpa using h
  simp only [route_query, hc, Bool.and_false, Bool.false_eq_true, if_false]

/-- Witness for C10 at a concrete query and a misspelled role. -/
theorem route_query_unknown_role_ignored_witness :
    ("product_manager" ∉ STAKEHOLDER_ROLES) ∧
      route_query "kyc audit" (some "product_manager") = route_query "kyc audit" none :=
  ⟨by decide, route_query_unknown_role_ignored "kyc audit" "product_manager" (by decide)⟩

/-- Claim C9 (divergence theorem): a failing NER call propagates out of
`extract_entities` — no regex-only bundle is returned, contradicting the
spec's partial-result requirement. -/
theorem extract_entities_propagates_ner_failure
    (re : String → String → List String) (ner : String → Except String (List NerEntity))
    (text e : String) (h : ner (pyTake 1000 text) = .error e) :
    extract_entities re ner text = .error e := by
  simp [extract_entities, h]

/-- Witness for C9: with the NER service down, extraction aborts on a text
full of regex-extractable facts. -/
theorem extract_entities_propagates_ner_failure_witness :
    extract_entities (fun _ _ => []) (fun _ => .error "NER unavailable")
      "HDFC Bank TXN: ABC12345678 amount: INR 1,250.00" =
      Except.error "NER unavailable" :=
  extract_entities_propagates_ner_failure _ _ _ _ rfl

/-- Claim C5: whenever the external generation call fails (non-200 status,
connection error, timeout or exception), `generate_response` returns the
deterministic fallback: success is true; with documents, the answer quotes
the first document's 300-character preview with the unavailability notice
and confidence is 60; without documents, a fixed insufficient-context
message and confidence 30. -/
theorem generate_response_fallback (outcome : OllamaOutcome) (query : String)
    (docs : List SearchResult) (stakeholder : String) (h : isFailure outcome = true) :
    (generate_response outcome query docs stakeholder).success = true ∧
    (docs = [] →
      (generate_response outcome query docs stakeholder).answer =
        "I don\x27t have enough context to answer this question. Please try rephrasing or provide more details.\n\n[Note: LLM service temporarily unavailable. Please ensure Ollama is running with \x27ollama serve\x27]" ∧
      (generate_response outcome query docs stakeholder).confidence = 30) ∧
    (∀ d ds, docs = d :: ds →
      (generate_response outcome query docs stakeholder).answer =
        "Based on the available documentation:\n\n" ++ pyTake 300 d.text ++
          "...\n\n[Note: LLM service temporarily unavailable. Please ensure Ollama is running with \x27ollama serve\x27]" ∧
      (generate_response outcome query docs stakeholder).confidence = 60) := by
  have hmock : generate_response outcome query docs stakeholder =
      mock_response query docs stakeholder := by
    cases outcome with
    | reply s b =>
        simp only [isFailure, bne_iff_ne, ne_eq] at h
        simp [generate_response, h]
    | connectionError => rfl
    | timeoutError => rfl
    | otherException => rfl
  rw [hmock]
  refine ⟨?_, ?_, ?_⟩
  · cases docs <;> rfl
  · intro hd
    subst hd
    exact ⟨rfl, rfl⟩
  · intro d ds hd
    subst hd
    exact ⟨rfl, rfl⟩

/-- Witness for C5 at a concrete failing outcome with one retrieved document. -/
theorem generate_response_fallback_witness :
    isFailure OllamaOutcome.connectionError = true ∧
    ((generate_response OllamaOutcome.connectionError "q" sampleDocs "product_lead").success =
        true ∧
     (sampleDocs = [] →
      (generate_response OllamaOutcome.connectionError "q" sampleDocs "product_lead").answer =
        "I don\x27t have enough context to answer this question. Please try rephrasing or provide more details.\n\n[Note: LLM service temporarily unavailable. Please ensure Ollama is running with \x27ollama serve\x27]" ∧
      (generate_response OllamaOutcome.connectionError "q" sampleDocs "product_lead").confidence =
        30) ∧
     (∀ d ds, sampleDocs = d :: ds →
      (generate_response OllamaOutcome.connectionError "q" sampleDocs "product_lead").answer =
        "Based on the available documentation:\n\n" ++ pyTake 300 d.text ++
          "...\n\n[Note: LLM service temporarily unavailable. Please ensure Ollama is running with \x27ollama serve\x27]" ∧
      (generate_response OllamaOutcome.connectionError "q" sampleDocs "product_lead").confidence =
        60)) :=
  ⟨rfl, generate_response_fallback OllamaOutcome.connectionError "q" sampleDocs "product_lead" rfl⟩

/-- Claim C4 (counterexample): on text `"upi"` the rule pass yields the weak
candidate `upi_transaction` (1 keyword < 3); when the zero-shot label
coincides with it, the ML score is adopted but the method is reported as
`rule_based`, not `ml_based` as the claim states. -/
theorem classify_document_weak_rule_counterexample :
    rule_based_classify "upi" "" = some "upi_transaction" ∧
    has_strong_pattern_match "upi" "upi_transaction" = false ∧
    (classify_document "upi_transaction" (1/2) "upi" "").confidence = 1/2 ∧
    (classify_document "upi_transaction" (1/2) "upi" "").classification_method =
      "rule_based" :=
  ⟨rfl, rfl, rfl, rfl⟩

/-- Claim C4 (amended): with no rule candidate or only a weak one,
`classify_document` adopts the ML label and ML score; the reported method is
`ml_based` unless the ML label coincides with the weak rule candidate, in
which case it is (mis)reported as `rule_based`. -/
theorem classify_document_weak_rule (mlLabel : String) (mlScore : ℚ) (text filename : String)
    (h : ∀ rt, rule_based_classify text filename = some rt →
      has_strong_pattern_match text rt = false) :
    (classify_document mlLabel mlScore text filename).doc_type = mlLabel ∧
    (classify_document mlLabel mlScore text filename).confidence = mlScore ∧
    (classify_document mlLabel mlScore text filename).classification_method =
      (if rule_based_classify text filename = some mlLabel then "rule_based"
       else "ml_based") := by
  cases hr : rule_based_classify text filename with
  | none => simp [classify_document, hr]
  | some rt =>
      have hw := h rt hr
      simp [classify_document, hr, hw]

/-- Witness for the amended C4 at text `"upi"` with an ML label differing from
the weak rule candidate. -/
theorem classify_document_weak_rule_witness :
    (∀ rt, rule_based_classify "upi" "" = some rt →
      has_strong_pattern_match "upi" rt = false) ∧
    ((classify_document "bank_api_response" (3/10) "upi" "").doc_type =
        "bank_api_response" ∧
     (classify_document "bank_api_response" (3/10) "upi" "").confidence = 3/10 ∧
     (classify_document "bank_api_response" (3/10) "upi" "").classification_method =
       (if rule_based_classify "upi" "" = some "bank_api_response" then "rule_based"
        else "ml_based")) := by
  have hw : ∀ rt, rule_based_classify "upi" "" = some rt →
      has_strong_pattern_match "upi" rt = false := by
    intro rt hrt
    have h0 : rule_based_classify "upi" "" = some "upi_transaction" := rfl
    rw [h0, Option.some.injEq] at hrt
    subst hrt
    rfl
  exact ⟨hw, classify_document_weak_rule "bank_api_response" (3/10) "upi" "" hw⟩

/-- Claim C6: the confidence is the average similarity score scaled to a
percentage and capped at 100, scores `[0.9, 0.5]` give exactly 70, an empty
retrieval gives 0, and for score values in `[0, 1]` the result stays inside
`[0, 100]`. -/
theorem calculate_confidence_spec (docs : List SearchResult)
    (h : ∀ d ∈ docs, 0 ≤ d.score ∧ d.score ≤ 1) :
    0 ≤ calculate_confidence docs ∧ calculate_confidence docs ≤ 100 ∧
    (docs = [] → calculate_confidence docs = 0) ∧
    (docs ≠ [] →
      calculate_confidence docs =
        min ((docs.map (·.score)).sum / (docs.length : ℚ) * 100) 100) ∧
    calculate_confidence
      [{ id := "a", score := 9/10, text := "", source := "", doc_type := "", stakeholders := "" },
       { id := "b", score := 1/2, text := "", source := "", doc_type := "", stakeholders := "" }] =
      70 := by
  have hex : calculate_confidence
      [{ id := "a", score := 9/10, text := "", source := "", doc_type := "", stakeholders := "" },
       { id := "b", score := 1/2, text := "", source := "", doc_type := "", stakeholders := "" }] =
      70 := by
    norm_num [calculate_confidence]
  by_cases hd : docs = []
  · subst hd
    refine ⟨le_refl 0, by norm_num [calculate_confidence], fun _ => rfl, fun hc => absurd rfl hc, hex⟩
  · have hformula : calculate_confidence docs =
        min ((docs.map (·.score)).sum / (docs.length : ℚ) * 100) 100 := by
      simp [calculate_confidence, List.isEmpty_iff, hd]
    have hsum : 0 ≤ (docs.map (·.score)).sum := by
      apply List.sum_nonneg
      intro x hx
      rw [List.mem_map] at hx
      obtain ⟨d, hdm, rfl⟩ := hx
      exact (h d hdm).1
    refine ⟨?_, ?_, fun hc => absurd hc hd, fun _ => hformula, hex⟩
    · rw [hformula]
      apply le_min
      · have hl : (0:ℚ) ≤ (docs.length : ℚ) := by positivity
        have := div_nonneg hsum hl
        nlinarith
      · norm_num
    · rw [hformula]
      exact min_le_right _ _

/-- Witness for C6 at the one-element sample retrieval. -/
theorem calculate_confidence_spec_witness :
    (∀ d ∈ sampleDocs, 0 ≤ d.score ∧ d.score ≤ 1) ∧
    (0 ≤ calculate_confidence sampleDocs ∧ calculate_confidence sampleDocs ≤ 100 ∧
     (sampleDocs = [] → calculate_confidence sampleDocs = 0) ∧
     (sampleDocs ≠ [] →
       calculate_confidence sampleDocs =
         min ((sampleDocs.map (·.score)).sum / (sampleDocs.length : ℚ) * 100) 100) ∧
     calculate_confidence
       [{ id := "a", score := 9/10, text := "", source := "", doc_type := "", stakeholders := "" },
        { id := "b", score := 1/2, text := "", source := "", doc_type := "", stakeholders := "" }] =
       70) := by
  have hs : ∀ d ∈ sampleDocs, 0 ≤ d.score ∧ d.score ≤ 1 := by
    intro d hdm
    simp only [sampleDocs, sampleDoc, List.mem_singleton] at hdm
    subst hdm
    norm_num
  exact ⟨hs, calculate_confidence_spec sampleDocs hs⟩

/-- The break-at-`top_k` filtering loop equals filter-then-take while fewer
than `top_k` results have been collected. -/
theorem filterLoop_eq_filter_take (stakeholder : String) (top_k : Nat)
    (l : List SearchResult) :
    ∀ count, count < top_k →
      filterLoop stakeholder top_k count l =
        (l.filter (stakeholderPasses stakeholder)).take (top_k - count) := by
  induction l with
  | nil => intro count _; simp [filterLoop]
  | cons r rs ih =>
      intro count hcount
      simp only [filterLoop, List.filter_cons]
      by_cases hp : stakeholderPasses stakeholder r = true
      · rw [if_pos hp, if_pos hp]
        by_cases hk : top_k ≤ count + 1
        · have h1 : top_k - count = 1 := by omega
          rw [if_pos hk, h1]
          simp
        · have hk2 : count + 1 < top_k := by omega
          rw [if_neg hk, ih (count + 1) hk2]
          have h2 : top_k - count = (top_k - (count + 1)) + 1 := by omega
          rw [h2, List.take_succ_cons]
      · rw [if_neg hp, if_neg hp, ih count hcount]

/-- Claim C2: with a supplied role, `search_by_stakeholder` asks the store for
`2×top_k` raw candidates, keeps exactly those whose stored stakeholders tag
contains the role as a substring or is empty, truncated to `top_k`; hence no
returned result carries a non-empty tag excluding the role. -/
theorem search_by_stakeholder_spec (store : String → Nat → String → List SearchResult)
    (query stakeholder : String) (top_k : Nat) (ns : String) (h : 1 ≤ top_k) :
    search_by_stakeholder store query stakeholder top_k ns =
      ((store query (top_k * 2) ns).filter (stakeholderPasses stakeholder)).take top_k ∧
    ∀ r ∈ search_by_stakeholder store query stakeholder top_k ns,
      r.stakeholders = "" ∨ occurs stakeholder r.stakeholders = true := by
  have heq : search_by_stakeholder store query stakeholder top_k ns =
      ((store query (top_k * 2) ns).filter (stakeholderPasses stakeholder)).take top_k := by
    have := filterLoop_eq_filter_take stakeholder top_k (store query (top_k * 2) ns) 0
      (by omega)
    simpa [search_by_stakeholder] using this
  refine ⟨heq, ?_⟩
  intro r hr
  rw [heq] at hr
  have hr2 : r ∈ (store query (top_k * 2) ns).filter (stakeholderPasses stakeholder) :=
    List.mem_of_mem_take hr
  have hp := List.of_mem_filter hr2
  simp only [stakeholderPasses, Bool.or_eq_true, beq_iff_eq] at hp
  tauto

/-- Witness for C2: a concrete store answer with a tag match, an empty tag and
an excluded tag; `top_k = 2` keeps the first two passing results. -/
theorem search_by_stakeholder_spec_witness :
    (1 ≤ 2) ∧
    (search_by_stakeholder (fun _ _ _ => [otherDoc, taggedDoc, sampleDoc]) "q"
        "product_lead" 2 "" =
      (([otherDoc, taggedDoc, sampleDoc].filter
          (stakeholderPasses "product_lead")).take 2) ∧
     ∀ r ∈ search_by_stakeholder (fun _ _ _ => [otherDoc, taggedDoc, sampleDoc]) "q"
        "product_lead" 2 "",
       r.stakeholders = "" ∨ occurs "product_lead" r.stakeholders = true) :=
  ⟨by omega,
   search_by_stakeholder_spec (fun _ _ _ => [otherDoc, taggedDoc, sampleDoc]) "q"
     "product_lead" 2 "" (by omega)⟩

/-- A role whose keywords all miss the query scores zero. -/
theorem scoreFor_eq_zero (ql : String) (groups : List (Nat × List String))
    (h : ∀ g ∈ groups, ∀ kw ∈ g.2, occurs (lowerStr kw) ql = false) :
    scoreFor ql groups = 0 := by
  apply List.sum_eq_zero
  intro x hx
  rw [List.mem_map] at hx
  obtain ⟨g, hg, rfl⟩ := hx
  have hnil : g.2.filter (fun kw => occurs (lowerStr kw) ql) = [] := by
    rw [List.filter_eq_nil_iff]
    intro kw hkw
    simp [h g hg kw hkw]
  simp [hnil]

/-- The running maximum of `maxByFirst` is the seed or one of the scanned
pairs. -/
theorem foldl_pickMax_mem (l : List (String × Nat)) :
    ∀ x : String × Nat,
      l.foldl (fun best y => if best.2 < y.2 then y else best) x = x ∨
      l.foldl (fun best y => if best.2 < y.2 then y else best) x ∈ l := by
  induction l with
  | nil => intro x; left; rfl
  | cons a as ih =>
      intro x
      simp only [List.foldl_cons]
      by_cases hc : x.2 < a.2
      · rw [if_pos hc]
        rcases ih a with h | h
        · right; rw [h]; exact List.mem_cons_self a as
        · right; exact List.mem_cons_of_mem a h
      · rw [if_neg hc]
        rcases ih x with h | h
        · left; exact h
        · right; exact List.mem_cons_of_mem a h

/-- `maxByFirst` of a non-empty list returns one of its elements. -/
theorem maxByFirst_mem (l : List (String × Nat)) (h : l ≠ []) : maxByFirst l ∈ l := by
  cases l with
  | nil => exact absurd rfl h
  | cons x xs =>
      simp only [maxByFirst]
      rcases foldl_pickMax_mem xs x with h1 | h1
      · rw [h1]; exact List.mem_cons_self x xs
      · exact List.mem_cons_of_mem x h1

/-- Claim C7: a query matching no keyword of any role's table routes to the
default `product_lead` when no role was supplied, and `route_query` always
returns one of the four configured roles. -/
theorem route_query_default_and_total :
    (∀ query : String,
      (∀ rk ∈ stakeholder_keywords, ∀ g ∈ rk.2, ∀ kw ∈ g.2,
        occurs (lowerStr kw) (lowerStr query) = false) →
      route_query query none = "product_lead") ∧
    (∀ (query : String) (user_role : Option String),
      route_query query user_role ∈ STAKEHOLDER_ROLES) := by
  have hmemRoles : ∀ query : String, routeByScores query ∈ STAKEHOLDER_ROLES := by
    intro query
    simp only [routeByScores]
    by_cases hz : (maxByFirst (roleScores query)).2 = 0
    · rw [if_pos hz]; decide
    · rw [if_neg hz]
      have hne : roleScores query ≠ [] := by
        simp [roleScores, stakeholder_keywords]
      have hmem := maxByFirst_mem (roleScores query) hne
      have : (maxByFirst (roleScores query)).1 ∈ (roleScores query).map Prod.fst :=
        List.mem_map_of_mem Prod.fst hmem
      have hfst : (roleScores query).map Prod.fst = STAKEHOLDER_ROLES := by
        simp only [roleScores, List.map_map]
        rfl
      rwa [hfst] at this
  constructor
  · intro query hq
    have hall : ∀ p ∈ roleScores query, p.2 = 0 := by
      intro p hp
      rw [roleScores, List.mem_map] at hp
      obtain ⟨rk, hrk, rfl⟩ := hp
      exact scoreFor_eq_zero _ _ (hq rk hrk)
    have hne : roleScores query ≠ [] := by
      simp [roleScores, stakeholder_keywords]
    have hz : (maxByFirst (roleScores query)).2 = 0 :=
      hall _ (maxByFirst_mem (roleScores query) hne)
    show routeByScores query = "product_lead"
    simp [routeByScores, hz]
  · intro query user_role
    cases user_role with
    | none => exact hmemRoles query
    | some r =>
        simp only [route_query]
        by_cases hc : (r != "" && (stakeholder_keywords.map Prod.fst).contains r) = true
        · rw [if_pos hc]
          have h2 := (Bool.and_eq_true _ _).mp hc |>.2
          have hfst : stakeholder_keywords.map Prod.fst = STAKEHOLDER_ROLES := rfl
          rw [hfst] at h2
          simpa using h2
        · rw [if_neg hc]
          exact hmemRoles query

/-- Witness for C7 at the keyword-free query `"xyzzy"` and an unknown role. -/
theorem route_query_default_and_total_witness :
    (∀ rk ∈ stakeholder_keywords, ∀ g ∈ rk.2, ∀ kw ∈ g.2,
      occurs (lowerStr kw) (lowerStr "xyzzy") = false) ∧
    route_query "xyzzy" none = "product_lead" ∧
    route_query "xyzzy" (some "boss") ∈ STAKEHOLDER_ROLES :=
  ⟨by decide, route_query_default_and_total.1 "xyzzy" (by decide),
   route_query_default_and_total.2 "xyzzy" (some "boss")⟩

/-- A keyword list none of whose entries occur in the text scores zero matches. -/
theorem countMatches_eq_zero (kws : List String) (tl : String)
    (h : ∀ kw ∈ kws, occurs kw tl = false) : countMatches kws tl = 0 := by
  unfold countMatches
  rw [List.filter_eq_nil_iff.mpr (fun kw hkw => by simp [h kw hkw])]
  rfl

/-- With no text matches, a type's rule score is at most the filename bonus 2. -/
theorem ruleScore_le_two (kws : List String) (tl fl : String)
    (h : countMatches kws tl = 0) : ruleScore kws tl fl ≤ 2 := by
  unfold ruleScore
  rw [h]
  split <;> omega

/-- `maxByFirst` picks a strictly dominant first entry. -/
theorem maxByFirst_first_dominant (a b c d : String) (sa sb sc sd : Nat)
    (hb : sb < sa) (hc : sc < sa) (hd : sd < sa) :
    maxByFirst [(a, sa), (b, sb), (c, sc), (d, sd)] = (a, sa) := by
  simp [maxByFirst, show ¬ sa < sb by omega, show ¬ sa < sc by omega,
    show ¬ sa < sd by omega]

/-- `maxByFirst` picks a strictly dominant second entry. -/
theorem maxByFirst_second_dominant (a b c d : String) (sa sb sc sd : Nat)
    (ha : sa < sb) (hc : sc < sb) (hd : sd < sb) :
    maxByFirst [(a, sa), (b, sb), (c, sc), (d, sd)] = (b, sb) := by
  simp [maxByFirst, ha, show ¬ sb < sc by omega, show ¬ sb < sd by omega]

/-- `maxByFirst` picks a strictly dominant third entry. -/
theorem maxByFirst_third_dominant (a b c d : String) (sa sb sc sd : Nat)
    (ha : sa < sc) (hb : sb < sc) (hd : sd < sc) :
    maxByFirst [(a, sa), (b, sb), (c, sc), (d, sd)] = (c, sc) := by
  by_cases h1 : sa < sb
  · simp [maxByFirst, h1, hb, show ¬ sc < sd by omega]
  · simp [maxByFirst, h1, ha, show ¬ sc < sd by omega]

/-- `maxByFirst` picks a strictly dominant fourth entry. -/
theorem maxByFirst_fourth_dominant (a b c d : String) (sa sb sc sd : Nat)
    (ha : sa < sd) (hb : sb < sd) (hc : sc < sd) :
    maxByFirst [(a, sa), (b, sb), (c, sc), (d, sd)] = (d, sd) := by
  by_cases h1 : sa < sb
  · by_cases h2 : sb < sc
    · simp [maxByFirst, h1, h2, hc]
    · simp [maxByFirst, h1, h2, hb]
  · by_cases h2 : sa < sc
    · simp [maxByFirst, h1, h2, hc]
    · simp [maxByFirst, h1, h2, ha]

/-- Claim C3: text containing at least 3 distinct keywords of exactly one doc
type's list and no keywords of any other type classifies as that type with
confidence 0.85 and method `rule_based`, for any filename and any zero-shot
answer. -/
theorem classify_document_strong_rule (mlLabel : String) (mlScore : ℚ)
    (text filename dt : String) (kws : List String)
    (hmem : (dt, kws) ∈ DOCUMENT_PATTERNS)
    (hstrong : 3 ≤ countMatches kws (lowerStr text))
    (hothers : ∀ p ∈ DOCUMENT_PATTERNS, p.1 ≠ dt →
      ∀ kw ∈ p.2, occurs kw (lowerStr text) = false) :
    (classify_document mlLabel mlScore text filename).doc_type = dt ∧
    (classify_document mlLabel mlScore text filename).confidence = 85/100 ∧
    (classify_document mlLabel mlScore text filename).classification_method =
      "rule_based" := by
  have hle : ∀ p ∈ DOCUMENT_PATTERNS, p.1 ≠ dt →
      ruleScore p.2 (lowerStr text) (lowerStr filename) ≤ 2 := by
    intro p hp hne
    exact ruleScore_le_two _ _ _ (countMatches_eq_zero _ _ (hothers p hp hne))
  have hge0 : 3 ≤ ruleScore kws (lowerStr text) (lowerStr filename) :=
    le_trans hstrong (Nat.le_add_right _ _)
  simp only [DOCUMENT_PATTERNS, List.mem_cons, Prod.mk.injEq, List.not_mem_nil,
    or_false] at hmem
  rcases hmem with ⟨rfl, rfl⟩ | ⟨rfl, rfl⟩ | ⟨rfl, rfl⟩ | ⟨rfl, rfl⟩
  · have hb := hle ("bank_api_response", bankApiKeywords) (by simp [DOCUMENT_PATTERNS]) (by decide)
    have hc := hle ("compliance_report", complianceKeywords) (by simp [DOCUMENT_PATTERNS]) (by decide)
    have hd := hle ("partnership_sla", slaKeywords) (by simp [DOCUMENT_PATTERNS]) (by decide)
    dsimp only at hb hc hd
    have e : rule_based_classify text filename = some "upi_transaction" := by
      dsimp only [rule_based_classify, DOCUMENT_PATTERNS, List.map_cons, List.map_nil]
      rw [maxByFirst_first_dominant _ _ _ _ _ _ _ _ (by omega) (by omega) (by omega)]
      dsimp only
      rw [if_pos (by omega)]
    have hsb : has_strong_pattern_match text "upi_transaction" = true := by
      have hlk : (DOCUMENT_PATTERNS.lookup "upi_transaction").getD [] = upiKeywords := rfl
      dsimp only [has_strong_pattern_match]
      rw [hlk]
      exact decide_eq_true hstrong
    refine ⟨?_, ?_, ?_⟩ <;> simp [classify_document, e, hsb]
  · have hb := hle ("upi_transaction", upiKeywords) (by simp [DOCUMENT_PATTERNS]) (by decide)
    have hc := hle ("compliance_report", complianceKeywords) (by simp [DOCUMENT_PATTERNS]) (by decide)
    have hd := hle ("partnership_sla", slaKeywords) (by simp [DOCUMENT_PATTERNS]) (by decide)
    dsimp only at hb hc hd
    have e : rule_based_classify text filename = some "bank_api_response" := by
      dsimp only [rule_based_classify, DOCUMENT_PATTERNS, List.map_cons, List.map_nil]
      rw [maxByFirst_second_dominant _ _ _ _ _ _ _ _ (by omega) (by omega) (by omega)]
      dsimp only
      rw [if_pos (by omega)]
    have hsb : has_strong_pattern_match text "bank_api_response" = true := by
      have hlk : (DOCUMENT_PATTERNS.lookup "bank_api_response").getD [] = bankApiKeywords := rfl
      dsimp only [has_strong_pattern_match]
      rw [hlk]
      exact decide_eq_true hstrong
    refine ⟨?_, ?_, ?_⟩ <;> simp [classify_document, e, hsb]
  · have hb := hle ("upi_transaction", upiKeywords) (by simp [DOCUMENT_PATTERNS]) (by decide)
    have hc := hle ("bank_api_response", bankApiKeywords) (by simp [DOCUMENT_PATTERNS]) (by decide)
    have hd := hle ("partnership_sla", slaKeywords) (by simp [DOCUMENT_PATTERNS]) (by decide)
    dsimp only at hb hc hd
    have e : rule_based_classify text filename = some "compliance_report" := by
      dsimp only [rule_based_classify, DOCUMENT_PATTERNS, List.map_cons, List.map_nil]
      rw [maxByFirst_third_dominant _ _ _ _ _ _ _ _ (by omega) (by omega) (by omega)]
      dsimp only
      rw [if_pos (by omega)]
    have hsb : has_strong_pattern_match text "compliance_report" = true := by
      have hlk : (DOCUMENT_PATTERNS.lookup "compliance_report").getD [] = complianceKeywords := rfl
      dsimp only [has_strong_pattern_match]
      rw [hlk]
      exact decide_eq_true hstrong
    refine ⟨?_, ?_, ?_⟩ <;> simp [classify_document, e, hsb]
  · have hb := hle ("upi_transaction", upiKeywords) (by simp [DOCUMENT_PATTERNS]) (by decide)
    have hc := hle ("bank_api_response", bankApiKeywords) (by simp [DOCUMENT_PATTERNS]) (by decide)
    have hd := hle ("compliance_report", complianceKeywords) (by simp [DOCUMENT_PATTERNS]) (by decide)
    dsimp only at hb hc hd
    have e : rule_based_classify text filename = some "partnership_sla" := by
      dsimp only [rule_based_classify, DOCUMENT_PATTERNS, List.map_cons, List.map_nil]
      rw [maxByFirst_fourth_dominant _ _ _ _ _ _ _ _ (by omega) (by omega) (by omega)]
      dsimp only
      rw [if_pos (by omega)]
    have hsb : has_strong_pattern_match text "partnership_sla" = true := by
      have hlk : (DOCUMENT_PATTERNS.lookup "partnership_sla").getD [] = slaKeywords := rfl
      dsimp only [has_strong_pattern_match]
      rw [hlk]
      exact decide_eq_true hstrong
    refine ⟨?_, ?_, ?_⟩ <;> simp [classify_document, e, hsb]

/-- Witness for C3: a text with exactly three `upi_transaction` keywords and
no other type's keywords, and a disagreeing zero-shot label. -/
theorem classify_document_strong_rule_witness :
    (("upi_transaction", upiKeywords) ∈ DOCUMENT_PATTERNS ∧
     3 ≤ countMatches upiKeywords (lowerStr "upi transaction payment") ∧
     (∀ p ∈ DOCUMENT_PATTERNS, p.1 ≠ "upi_transaction" →
       ∀ kw ∈ p.2, occurs kw (lowerStr "upi transaction payment") = false)) ∧
    ((classify_document "compliance_report" (1/10) "upi transaction payment" "").doc_type =
        "upi_transaction" ∧
     (classify_document "compliance_report" (1/10) "upi transaction payment" "").confidence =
        85/100 ∧
     (classify_document "compliance_report" (1/10) "upi transaction payment"
        "").classification_method = "rule_based") :=
  ⟨⟨by decide, by decide, by decide⟩,
   classify_document_strong_rule "compliance_report" (1/10) "upi transaction payment" ""
     "upi_transaction" upiKeywords (by decide) (by decide) (by decide)⟩

/-- Claim C8: `filter_sources_by_role` returns a permutation of its input,
sorted ascending by the index of each source's doc type in the role's
priority list (missing types keyed past the end, hence last), and stably so:
for every key value the sources with that key appear in their input order. -/
theorem filter_sources_by_role_spec (sources : List SearchResult) (stakeholder : String) :
    (filter_sources_by_role sources stakeholder).Perm sources ∧
    List.Pairwise
      (fun a b =>
        get_priority ((doc_priorities.lookup stakeholder).getD []) a ≤
          get_priority ((doc_priorities.lookup stakeholder).getD []) b)
      (filter_sources_by_role sources stakeholder) ∧
    ∀ n : Nat,
      (filter_sources_by_role sources stakeholder).filter
          (fun d =>
            decide (get_priority ((doc_priorities.lookup stakeholder).getD []) d = n)) =
        sources.filter
          (fun d =>
            decide (get_priority ((doc_priorities.lookup stakeholder).getD []) d = n)) := by
  set P := (doc_priorities.lookup stakeholder).getD [] with hP
  set le : SearchResult → SearchResult → Bool :=
    fun a b => decide (get_priority P a ≤ get_priority P b) with hle
  have htrans : ∀ a b c : SearchResult, le a b = true → le b c = true → le a c = true := by
    intro a b c h1 h2
    simp only [hle, decide_eq_true_eq] at h1 h2 ⊢
    omega
  have htot : ∀ a b : SearchResult, (le a b || le b a) = true := by
    intro a b
    simp only [hle, Bool.or_eq_true, decide_eq_true_eq]
    omega
  have hout : filter_sources_by_role sources stakeholder = sources.mergeSort le := rfl
  have hperm : (sources.mergeSort le).Perm sources := List.mergeSort_perm sources le
  refine ⟨hout ▸ hperm, ?_, ?_⟩
  · rw [hout]
    have hsorted := List.sorted_mergeSort htrans htot sources
    exact hsorted.imp (fun hab => by
      have := hab
      simp only [hle, decide_eq_true_eq] at this
      exact this)
  · intro n
    rw [hout]
    set p : SearchResult → Bool := fun d => decide (get_priority P d = n) with hp
    have hsubl : (sources.filter p).Sublist sources := List.filter_sublist sources
    have hpair : List.Pairwise (fun a b => le a b = true) (sources.filter p) := by
      apply List.pairwise_of_forall_mem_list
      intro a ha b hb
      have hka := List.of_mem_filter ha
      have hkb := List.of_mem_filter hb
      simp only [hp, decide_eq_true_eq] at hka hkb
      simp only [hle, decide_eq_true_eq]
      omega
    have hstab : (sources.filter p).Sublist (sources.mergeSort le) :=
      List.sublist_mergeSort htrans htot hpair hsubl
    have hall : ∀ a ∈ sources.filter p, p a = true := fun a ha => List.of_mem_filter ha
    have hsub2 : (sources.filter p).Sublist ((sources.mergeSort le).filter p) := by
      have hf := List.Sublist.filter p hstab
      rwa [List.filter_eq_self.mpr hall] at hf
    have hpermf : ((sources.mergeSort le).filter p).Perm (sources.filter p) :=
      List.Perm.filter p hperm
    have hlen : (sources.filter p).length = ((sources.mergeSort le).filter p).length :=
      hpermf.length_eq.symm
    exact (List.Sublist.eq_of_length hsub2 hlen).symm
